import Mathlib

/-!
Shallow embedding of the ROI-resolution, runtime-override and capture logic of
`camRAT.py` (a window-region MJPEG republisher).  Python integers are modelled
as `ℤ`, Python floats as `ℚ` (idealised exact arithmetic), Python `int(...)`
truncation toward zero as `pytrunc`, fallible code as `Except`, and the
process-wide mutable override globals as an explicit `ServerState` threaded
through the request handlers.  External libraries (window enumeration, screen
grab, JPEG encode) enter as explicit parameters.
-/

/-- Python `int(q)` on a real value: truncation toward zero (`Int.tdiv` uses
the T-rounding convention, and `q.num / q.den` is `q` in lowest terms). -/
def pytrunc (q : ℚ) : ℤ := q.num.tdiv (q.den : ℤ)

/-- Python `str.lower()` (the strings occurring here are ASCII). -/
def pyLower (s : String) : String := ⟨s.data.map Char.toLower⟩

/-- Result of `find_window_bbox` in `camRAT.py` (line 56): the window title and
its on-screen bounding box, with `width = right - left`, `height = bottom - top`. -/
structure WindowBBox where
  title : String
  left : ℤ
  top : ℤ
  width : ℤ
  height : ℤ
deriving DecidableEq

/-- The ROI dict `{left, top, width, height}` handed to `mss.grab`
(screen coordinates, integer pixels). -/
structure CaptureRect where
  left : ℤ
  top : ℤ
  width : ℤ
  height : ℤ
deriving DecidableEq

-- ---- Config constants of camRAT.py (lines 16-32) ----

def WINDOW_TITLE : String := "DMV-Viewer"

def ROI_MODE : String := "relative"

def ABS_ROI : ℤ × ℤ × ℤ × ℤ := (1454, 540, 460, 377)

def REL_ROI : ℚ × ℚ × ℚ × ℚ :=
  (748713/1000000, 518234/1000000, 985582/1000000, 880038/1000000)

def ROI_CLAMP : ℤ := 0

/-- The runtime-override globals `ROI_RUNTIME_MODE`, `ROI_RUNTIME_ABS`,
`ROI_RUNTIME_REL` (lines 35-37), all initially `None`. -/
structure ServerState where
  roi_runtime_mode : Option String
  roi_runtime_abs : Option (ℤ × ℤ × ℤ × ℤ)
  roi_runtime_rel : Option (ℚ × ℚ × ℚ × ℚ)
deriving DecidableEq

def initState : ServerState := ⟨none, none, none⟩

-- ---- ROI helpers (camRAT.py lines 58-93) ----

/-- `_roi_from_absolute` (lines 58-65): absolute `(x,y,w,h)` inside the window
bbox, clamped, translated to screen coordinates. -/
def roi_from_absolute (bbox : WindowBBox) (abs_roi : ℤ × ℤ × ℤ × ℤ) : CaptureRect :=
  let L := bbox.left; let T := bbox.top; let W := bbox.width; let H := bbox.height
  let x := max 0 abs_roi.1
  let y := max 0 abs_roi.2.1
  let w := max 1 (min abs_roi.2.2.1 (W - x))
  let h := max 1 (min abs_roi.2.2.2 (H - y))
  { left := L + x, top := T + y, width := w, height := h }

/-- `_roi_from_relative` (lines 67-76): fractional `(l,t,r,b)` clamped into
`[0,1]`, swap-safe corners, truncated to integer pixels by Python `int(...)`. -/
def roi_from_relative (bbox : WindowBBox) (rel_roi : ℚ × ℚ × ℚ × ℚ) : CaptureRect :=
  let L := bbox.left; let T := bbox.top; let W := bbox.width; let H := bbox.height
  let l := max 0 (min 1 rel_roi.1)
  let t := max 0 (min 1 rel_roi.2.1)
  let r := max 0 (min 1 rel_roi.2.2.1)
  let b := max 0 (min 1 rel_roi.2.2.2)
  let x0 := pytrunc ((L : ℚ) + (W : ℚ) * min l r)
  let y0 := pytrunc ((T : ℚ) + (H : ℚ) * min t b)
  let x1 := pytrunc ((L : ℚ) + (W : ℚ) * max l r)
  let y1 := pytrunc ((T : ℚ) + (H : ℚ) * max t b)
  { left := x0, top := y0, width := max 1 (x1 - x0), height := max 1 (y1 - y0) }

/-- Python `a or b` on an optional string and a string default: `None` and the
empty string are falsy. -/
def pyOrStr (a : Option String) (b : String) : String :=
  match a with
  | none => b
  | some s => if s = "" then b else s

/-- Line 80: `(ROI_RUNTIME_MODE or ROI_MODE or "relative").lower()`. -/
def effectiveMode (st : ServerState) : String :=
  let m := pyOrStr st.roi_runtime_mode ROI_MODE
  pyLower (if m = "" then "relative" else m)

/-- The border-clamp step of `_apply_roi_to_bbox` (lines 88-92), guarded by
`ROI_CLAMP > 0`. -/
def borderClamp (c : ℤ) (r : CaptureRect) : CaptureRect :=
  if 0 < c then
    { left := r.left + c, top := r.top + c,
      width := max 1 (r.width - 2 * c), height := max 1 (r.height - 2 * c) }
  else r

/-- `_apply_roi_to_bbox` (lines 78-93), with the globals (`ROI_RUNTIME_*`,
`ROI_CLAMP`) passed explicitly. -/
def apply_roi_to_bbox (st : ServerState) (roiClamp : ℤ) (bbox : WindowBBox) : CaptureRect :=
  let mode := effectiveMode st
  let roi :=
    if mode = "absolute" then
      roi_from_absolute bbox (st.roi_runtime_abs.getD ABS_ROI)
    else
      roi_from_relative bbox (st.roi_runtime_rel.getD REL_ROI)
  borderClamp roiClamp roi

-- ---- Window enumeration (camRAT.py lines 47-56) ----

/-- A top-level OS window as seen through `pygetwindow`: title, screen-space
edges and minimisation flag. -/
structure PyWindow where
  title : String
  left : ℤ
  top : ℤ
  right : ℤ
  bottom : ℤ
  isMinimized : Bool
deriving DecidableEq

/-- `leadsWith needle hay`: `needle` matches the start of `hay`. -/
def leadsWith : List Char → List Char → Bool
  | [], _ => true
  | _ :: _, [] => false
  | a :: as, b :: bs => a == b && leadsWith as bs

/-- `hasSub needle hay`: `needle` occurs contiguously in `hay`. -/
def hasSub (needle : List Char) : List Char → Bool
  | [] => leadsWith needle []
  | c :: rest => leadsWith needle (c :: rest) || hasSub needle rest

/-- Python `sub in s`: case-sensitive substring containment. -/
def titleContains (sub s : String) : Bool := hasSub sub.data s.data

/-- `pygetwindow.getWindowsWithTitle`: all windows whose title contains the
given text, in enumeration order. -/
def getWindowsWithTitle (t : String) (wins : List PyWindow) : List PyWindow :=
  wins.filter (fun w => titleContains t w.title)

/-- Line 49: the library call re-filtered by `WINDOW_TITLE in w.title`. -/
def matchedWindows (wins : List PyWindow) : List PyWindow :=
  (getWindowsWithTitle WINDOW_TITLE wins).filter (fun w => titleContains WINDOW_TITLE w.title)

/-- The two `ValueError` raise sites of `find_window_bbox`, with their
interpolated messages. -/
inductive WinError where
  | notFound (msg : String)
  | minimized (msg : String)
deriving DecidableEq

def winErrMsg : WinError → String
  | .notFound m => m
  | .minimized m => m

/-- `find_window_bbox` (lines 47-56), over an explicit window enumeration. -/
def find_window_bbox (wins : List PyWindow) : Except WinError WindowBBox :=
  match matchedWindows wins with
  | [] => .error (.notFound ("Window \x27" ++ WINDOW_TITLE ++ "\x27 not found"))
  | w :: _ =>
    if w.isMinimized then
      .error (.minimized ("Window \x27" ++ w.title ++ "\x27 is minimized"))
    else
      .ok { title := w.title, left := w.left, top := w.top,
            width := w.right - w.left, height := w.bottom - w.top }

-- ---- Frame grabbing (camRAT.py lines 95-106) ----

/-- An in-memory raster as far as the captured control flow observes it:
shape, whether the base pixels are all zero (black), and any text burned in
by `cv2.putText`. -/
structure Frame where
  height : ℕ
  width : ℕ
  channels : ℕ
  baseZero : Bool
  text : Option String
deriving DecidableEq

/-- Lines 104-105: `np.zeros((480, 640, 3))` with the error message rendered
into the pixels. -/
def errorFrame (msg : String) : Frame :=
  { height := 480, width := 640, channels := 3, baseZero := true, text := some msg }

/-- `cv2.cvtColor(..., COLOR_BGRA2BGR)`: drops the alpha channel, keeping the
raster otherwise intact. -/
def cvtColorBGRA2BGR (f : Frame) : Frame := { f with channels := 3 }

/-- `grab_frame` (lines 95-106).  The `mss` screen grab is an external call,
passed in as `grab`; any failure of lookup or grab is caught and converted to
the placeholder error frame together with the error message. -/
def grab_frame (wins : List PyWindow) (st : ServerState) (roiClamp : ℤ)
    (grab : CaptureRect → Except String Frame) : Frame × Option String :=
  match find_window_bbox wins with
  | .error e => (errorFrame (winErrMsg e), some (winErrMsg e))
  | .ok bbox_win =>
    match grab (apply_roi_to_bbox st roiClamp bbox_win) with
    | .error m => (errorFrame m, some m)
    | .ok shot => (cvtColorBGRA2BGR shot, none)

/-- Response produced by a snapshot-style Flask route. -/
structure SnapResp where
  status : ℕ
  contentType : String
  body : List ℕ
deriving DecidableEq

/-- `/snapshot.jpg` (lines 172-183): grab (never raises), encode (raises out of
the handler on failure — modelled as `Except.error`), answer HTTP 200 with the
JPEG bytes.  The JPEG encoder `cv2.imencode` is external, passed as `enc`. -/
def snapshot (wins : List PyWindow) (st : ServerState) (roiClamp : ℤ)
    (grab : CaptureRect → Except String Frame)
    (enc : Frame → Except String (List ℕ)) : Except String SnapResp :=
  match enc (grab_frame wins st roiClamp grab).1 with
  | .error m => .error m
  | .ok jpg => .ok { status := 200, contentType := "image/jpeg", body := jpg }

-- ---- Runtime ROI override endpoint (camRAT.py lines 406-429) ----

/-- Query arguments of a `/set_roi` request, already lexed to numbers where
present (`int(float(...))` / `float(...)` parsing of present parameters). -/
structure RoiRequest where
  mode : Option String
  x : Option ℤ
  y : Option ℤ
  w : Option ℤ
  h : Option ℤ
  l : Option ℚ
  t : Option ℚ
  r : Option ℚ
  b : Option ℚ
deriving DecidableEq

/-- Status line and `ok` field of a `/set_roi` JSON response. -/
structure HttpResult where
  ok : Bool
  status : ℕ
deriving DecidableEq

/-- `set_roi` (lines 406-429): returns the updated override state and the
response.  `(request.args.get("mode") or "").lower()` is `pyLower (mode.getD "")`. -/
def set_roi (st : ServerState) (req : RoiRequest) : ServerState × HttpResult :=
  if pyLower (req.mode.getD "") = "absolute" then
    ({ roi_runtime_mode := some "absolute",
       roi_runtime_abs := some (req.x.getD 0, req.y.getD 0, req.w.getD 1, req.h.getD 1),
       roi_runtime_rel := none },
     { ok := true, status := 200 })
  else if pyLower (req.mode.getD "") = "relative" then
    ({ roi_runtime_mode := some "relative",
       roi_runtime_abs := none,
       roi_runtime_rel := some (req.l.getD 0, req.t.getD 0, req.r.getD 1, req.b.getD 1) },
     { ok := true, status := 200 })
  else
    (st, { ok := false, status := 400 })

/-- The state reached from the initial globals by a sequence of `/set_roi`
requests. -/
def runRequests (reqs : List RoiRequest) : ServerState :=
  reqs.foldl (fun s r => (set_roi s r).1) initState

-- ---- Health endpoint (camRAT.py lines 432-447) ----

/-- The JSON fields of a `/health` response that the spec constrains. -/
structure HealthResp where
  ok : Bool
  window : Option String
  roi_bbox : Option CaptureRect
  mode : Option String
  runtime_abs : Option (ℤ × ℤ × ℤ × ℤ)
  runtime_rel : Option (ℚ × ℚ × ℚ × ℚ)
  errorMsg : Option String
  status : ℕ
deriving DecidableEq

/-- `health` (lines 432-447): on lookup success reports the window, the
resolved ROI, the active mode `ROI_RUNTIME_MODE or ROI_MODE` and both override
slots; on failure reports `ok = False` with the error, still HTTP 200. -/
def health (st : ServerState) (roiClamp : ℤ) (wins : List PyWindow) : HealthResp :=
  match find_window_bbox wins with
  | .ok bbox_win =>
      { ok := true, window := some bbox_win.title,
        roi_bbox := some (apply_roi_to_bbox st roiClamp bbox_win),
        mode := some (pyOrStr st.roi_runtime_mode ROI_MODE),
        runtime_abs := st.roi_runtime_abs,
        runtime_rel := st.roi_runtime_rel,
        errorMsg := none, status := 200 }
  | .error e =>
      { ok := false, window := none, roi_bbox := none, mode := none,
        runtime_abs := none, runtime_rel := none,
        errorMsg := some (winErrMsg e), status := 200 }

-- ---- Theorems ----

/-- C1: for every window bounding box and absolute ROI spec `(x,y,w,h)` with
`x ≥ 0` and `y ≥ 0`, the absolute branch returns `left = windowLeft + x`,
`top = windowTop + y`, `width = min(w, windowWidth - x)` clamped up to at
least 1, and `height = min(h, windowHeight - y)` clamped up to at least 1. -/
theorem roi_from_absolute_formula (bbox : WindowBBox) (x y w h : ℤ)
    (hx : 0 ≤ x) (hy : 0 ≤ y) :
    roi_from_absolute bbox (x, y, w, h) =
      { left := bbox.left + x, top := bbox.top + y,
        width := max 1 (min w (bbox.width - x)),
        height := max 1 (min h (bbox.height - y)) } := by
  simp only [roi_from_absolute, max_eq_right hx, max_eq_right hy]

/-- Witness for C1 at a concrete window and spec. -/
theorem roi_from_absolute_formula_witness :
    roi_from_absolute ⟨"DMV-Viewer", 100, 50, 800, 600⟩ (10, 20, 30, 40) =
      ⟨110, 70, 30, 40⟩ :=
  (roi_from_absolute_formula ⟨"DMV-Viewer", 100, 50, 800, 600⟩ 10 20 30 40
    (by decide) (by decide)).trans (by decide)

/-- C2: the relative branch clamps each fraction into `[0,1]`, computes the
swap-safe corners `x0,y0,x1,y1` from the window box (truncated to integer
pixels by Python `int(...)`), and returns width `max 1 (x1-x0)` and height
`max 1 (y1-y0)`; on `WindowBBox{100,50,800,600}` with spec `(0.5,0.5,1,1)` the
result is `{left=500, top=350, width=400, height=300}`. -/
theorem roi_from_relative_formula :
    (∀ (bbox : WindowBBox) (l t r b : ℚ),
      roi_from_relative bbox (l, t, r, b) =
        (let lc := max 0 (min 1 l)
         let tc := max 0 (min 1 t)
         let rc := max 0 (min 1 r)
         let bc := max 0 (min 1 b)
         let x0 := pytrunc ((bbox.left : ℚ) + (bbox.width : ℚ) * min lc rc)
         let y0 := pytrunc ((bbox.top : ℚ) + (bbox.height : ℚ) * min tc bc)
         let x1 := pytrunc ((bbox.left : ℚ) + (bbox.width : ℚ) * max lc rc)
         let y1 := pytrunc ((bbox.top : ℚ) + (bbox.height : ℚ) * max tc bc)
         { left := x0, top := y0,
           width := max 1 (x1 - x0), height := max 1 (y1 - y0) }))
    ∧ roi_from_relative ⟨"DMV-Viewer", 100, 50, 800, 600⟩ (1/2, 1/2, 1, 1) =
        ⟨500, 350, 400, 300⟩ := by
  constructor
  · intro bbox l t r b; rfl
  · simp only [roi_from_relative, CaptureRect.mk.injEq]
    norm_num [pytrunc]

/-- C3: the relative branch is order-independent in its corners — swapping
`l` with `r` and/or `t` with `b` (values arbitrary, clamped into `[0,1]`
before use) resolves to an identical capture rectangle. -/
theorem roi_from_relative_swap_invariant (bbox : WindowBBox) (l t r b : ℚ) :
    roi_from_relative bbox (r, t, l, b) = roi_from_relative bbox (l, t, r, b)
  ∧ roi_from_relative bbox (l, b, r, t) = roi_from_relative bbox (l, t, r, b)
  ∧ roi_from_relative bbox (r, b, l, t) = roi_from_relative bbox (l, t, r, b) := by
  refine ⟨?_, ?_, ?_⟩
  · simp only [roi_from_relative]
    rw [min_comm (max 0 (min 1 r)) (max 0 (min 1 l)),
        max_comm (max 0 (min 1 r)) (max 0 (min 1 l))]
  · simp only [roi_from_relative]
    rw [min_comm (max 0 (min 1 b)) (max 0 (min 1 t)),
        max_comm (max 0 (min 1 b)) (max 0 (min 1 t))]
  · simp only [roi_from_relative]
    rw [min_comm (max 0 (min 1 r)) (max 0 (min 1 l)),
        max_comm (max 0 (min 1 r)) (max 0 (min 1 l)),
        min_comm (max 0 (min 1 b)) (max 0 (min 1 t)),
        max_comm (max 0 (min 1 b)) (max 0 (min 1 t))]

/-- C4: for any resolved rectangle and any `clampPixels > 0`, the border-clamp
step adds `clampPixels` to `left`/`top` and subtracts `2*clampPixels` from
`width`/`height`, flooring both at 1; in particular `{0,0,10,10}` with clamp 3
becomes `{3,3,4,4}` and with clamp 6 the width and height floor at 1. -/
theorem borderClamp_formula (r : CaptureRect) (c : ℤ) (hc : 0 < c) :
    borderClamp c r =
      { left := r.left + c, top := r.top + c,
        width := max 1 (r.width - 2 * c), height := max 1 (r.height - 2 * c) }
  ∧ borderClamp 3 ⟨0, 0, 10, 10⟩ = ⟨3, 3, 4, 4⟩
  ∧ (borderClamp 6 ⟨0, 0, 10, 10⟩).width = 1
  ∧ (borderClamp 6 ⟨0, 0, 10, 10⟩).height = 1 := by
  refine ⟨?_, by decide, by decide, by decide⟩
  simp only [borderClamp, if_pos hc]

/-- Witness for C4 at `clampPixels = 3` on `{0,0,10,10}`. -/
theorem borderClamp_formula_witness :
    borderClamp 3 ⟨0, 0, 10, 10⟩ = ⟨3, 3, 4, 4⟩ :=
  ((borderClamp_formula ⟨0, 0, 10, 10⟩ 3 (by decide)).1).trans (by decide)

/-- C5: for every override state (hence every absolute or relative ROI spec,
in range or not), every border-clamp value and every window bounding box, the
fully resolved capture rectangle has `width ≥ 1` and `height ≥ 1`. -/
theorem capture_rect_min_dims (st : ServerState) (c : ℤ) (bbox : WindowBBox) :
    1 ≤ (apply_roi_to_bbox st c bbox).width ∧ 1 ≤ (apply_roi_to_bbox st c bbox).height := by
  have hb : ∀ r : CaptureRect, 1 ≤ r.width → 1 ≤ r.height →
      1 ≤ (borderClamp c r).width ∧ 1 ≤ (borderClamp c r).height := by
    intro r hw hh
    unfold borderClamp
    split
    · exact ⟨le_max_left _ _, le_max_left _ _⟩
    · exact ⟨hw, hh⟩
  simp only [apply_roi_to_bbox]
  refine hb _ ?_ ?_ <;> split <;> exact le_max_left (1 : ℤ) _

/-- C10: the effective mode is the runtime-override mode when set, otherwise
the compiled default, lowercased; the absolute branch is taken exactly when
that string is `"absolute"`, and any other string silently selects the
relative branch.  (The hypothesis excludes the runtime mode being set to the
empty string, which no code path produces: Python's `or` would treat it as
unset.) -/
theorem effective_mode_dispatch (st : ServerState) (c : ℤ) (bbox : WindowBBox)
    (hne : ∀ m, st.roi_runtime_mode = some m → m ≠ "") :
    effectiveMode st = pyLower (st.roi_runtime_mode.getD ROI_MODE)
  ∧ (effectiveMode st = "absolute" →
      apply_roi_to_bbox st c bbox =
        borderClamp c (roi_from_absolute bbox (st.roi_runtime_abs.getD ABS_ROI)))
  ∧ (effectiveMode st ≠ "absolute" →
      apply_roi_to_bbox st c bbox =
        borderClamp c (roi_from_relative bbox (st.roi_runtime_rel.getD REL_ROI))) := by
  refine ⟨?_, ?_, ?_⟩
  · cases hmode : st.roi_runtime_mode with
    | none => simp [effectiveMode, pyOrStr, ROI_MODE, hmode]
    | some m =>
      have hm := hne m hmode
      simp [effectiveMode, pyOrStr, hmode, hm]
  · intro h
    simp only [apply_roi_to_bbox]
    rw [if_pos h]
  · intro h
    simp only [apply_roi_to_bbox]
    rw [if_neg h]

/-- Witness for C10: an unknown runtime mode string selects the relative
branch. -/
theorem effective_mode_dispatch_witness :
    apply_roi_to_bbox ⟨some "garbage", none, none⟩ 0 ⟨"t", 0, 0, 100, 100⟩ =
      borderClamp 0 (roi_from_relative ⟨"t", 0, 0, 100, 100⟩ REL_ROI) := by
  refine (effective_mode_dispatch ⟨some "garbage", none, none⟩ 0
    ⟨"t", 0, 0, 100, 100⟩ ?_).2.2 ?_
  · intro m hm
    simp only [Option.some.injEq] at hm
    subst hm
    decide
  · decide

/-- C7 (counterexample): `"ABSOLUTE"` is neither the string `"absolute"` nor
`"relative"`, yet `/set_roi?mode=ABSOLUTE` answers HTTP 200 with `ok = True`
and mutates the override state — the handler compares the mode only after
lowercasing. -/
theorem set_roi_uppercase_mode_cex :
    (("ABSOLUTE" : String) ≠ "absolute" ∧ ("ABSOLUTE" : String) ≠ "relative")
  ∧ (set_roi initState ⟨some "ABSOLUTE", none, none, none, none, none, none, none, none⟩).2.status = 200
  ∧ (set_roi initState ⟨some "ABSOLUTE", none, none, none, none, none, none, none, none⟩).2.ok = true
  ∧ (set_roi initState ⟨some "ABSOLUTE", none, none, none, none, none, none, none, none⟩).1
      ≠ initState := by decide

/-- C7 (amended): a `/set_roi` request whose `mode` is missing, or whose
lowercased `mode` is neither `"absolute"` nor `"relative"`, answers HTTP 400
with `ok = False` and leaves the override state untouched. -/
theorem set_roi_invalid_mode_rejected (st : ServerState) (req : RoiRequest)
    (h1 : pyLower (req.mode.getD "") ≠ "absolute")
    (h2 : pyLower (req.mode.getD "") ≠ "relative") :
    (set_roi st req).2.status = 400 ∧ (set_roi st req).2.ok = false
    ∧ (set_roi st req).1 = st := by
  unfold set_roi
  rw [if_neg h1, if_neg h2]
  exact ⟨rfl, rfl, rfl⟩

/-- Witness for C7's amended theorem: a request with no `mode` at all. -/
theorem set_roi_invalid_mode_rejected_witness :
    (set_roi initState ⟨none, none, none, none, none, none, none, none, none⟩).2.status = 400
    ∧ (set_roi initState ⟨none, none, none, none, none, none, none, none, none⟩).1 = initState :=
  ⟨(set_roi_invalid_mode_rejected initState _ (by decide) (by decide)).1,
   (set_roi_invalid_mode_rejected initState _ (by decide) (by decide)).2.2⟩

/-- C8 (counterexample): with two open windows whose titles both contain
`"DMV-Viewer"` and the first of them minimized, the match is not sole, yet the
locator raises `Minimized` instead of returning the first match's bounding
box — it never looks past the first match. -/
theorem find_window_bbox_first_minimized_cex :
    (matchedWindows [⟨"DMV-Viewer A", 0, 0, 100, 100, true⟩,
        ⟨"DMV-Viewer B", 10, 10, 200, 200, false⟩]).length = 2
  ∧ find_window_bbox [⟨"DMV-Viewer A", 0, 0, 100, 100, true⟩,
        ⟨"DMV-Viewer B", 10, 10, 200, 200, false⟩]
      = .error (.minimized "Window \x27DMV-Viewer A\x27 is minimized") :=
  ⟨by decide, rfl⟩

/-- C8 (amended): the locator raises `NotFound` exactly when zero open windows
have a title containing the configured substring (case-sensitive); when the
first match (in enumeration order) is minimized it raises `Minimized`; and
when the first match is not minimized it returns that window's bounding box
`(title, left, top, width, height)`. -/
theorem find_window_bbox_cases (wins : List PyWindow) :
    ((∀ w ∈ wins, ¬titleContains WINDOW_TITLE w.title) ↔
       find_window_bbox wins =
         .error (.notFound ("Window \x27" ++ WINDOW_TITLE ++ "\x27 not found")))
  ∧ (∀ w ws, matchedWindows wins = w :: ws →
       (w.isMinimized = true →
          find_window_bbox wins =
            .error (.minimized ("Window \x27" ++ w.title ++ "\x27 is minimized")))
     ∧ (w.isMinimized = false →
          find_window_bbox wins =
            .ok ⟨w.title, w.left, w.top, w.right - w.left, w.bottom - w.top⟩)) := by
  have hnil : matchedWindows wins = [] ↔ (∀ w ∈ wins, ¬titleContains WINDOW_TITLE w.title) := by
    simp only [matchedWindows, getWindowsWithTitle, List.filter_filter, Bool.and_self,
      List.filter_eq_nil_iff]
  have hcons : ∀ w ws, matchedWindows wins = w :: ws →
      find_window_bbox wins =
        (if w.isMinimized = true then
          Except.error (.minimized ("Window \x27" ++ w.title ++ "\x27 is minimized"))
        else
          Except.ok ⟨w.title, w.left, w.top, w.right - w.left, w.bottom - w.top⟩) := by
    intro w ws hm
    unfold find_window_bbox
    rw [hm]
  constructor
  · constructor
    · intro h
      unfold find_window_bbox
      rw [hnil.mpr h]
    · intro h
      cases hm : matchedWindows wins with
      | nil => exact hnil.mp hm
      | cons w ws =>
        exfalso
        rw [hcons w ws hm] at h
        by_cases hb : w.isMinimized = true
        · rw [if_pos hb] at h
          simp at h
        · rw [if_neg hb] at h
          simp at h
  · intro w ws hm
    refine ⟨fun hw => ?_, fun hw => ?_⟩
    · rw [hcons w ws hm, if_pos hw]
    · rw [hcons w ws hm, if_neg (by simp [hw])]

/-- C9: whenever window lookup or the screen grab fails, `grab_frame` returns
the fixed 640x480 black 3-channel placeholder raster with the error message
rendered into it, together with the error, instead of propagating; hence
`/snapshot.jpg` answers HTTP 200 with a JPEG body (whenever the JPEG encoder
itself succeeds on the placeholder, which `/snapshot.jpg` does not catch). -/
theorem grab_frame_error_placeholder
    (wins : List PyWindow) (st : ServerState) (c : ℤ)
    (grab : CaptureRect → Except String Frame)
    (enc : Frame → Except String (List ℕ)) :
    (∀ e, find_window_bbox wins = .error e →
       grab_frame wins st c grab = (errorFrame (winErrMsg e), some (winErrMsg e))
       ∧ errorFrame (winErrMsg e) =
           { height := 480, width := 640, channels := 3,
             baseZero := true, text := some (winErrMsg e) }
       ∧ ∀ jpg, enc (errorFrame (winErrMsg e)) = .ok jpg →
           snapshot wins st c grab enc =
             .ok { status := 200, contentType := "image/jpeg", body := jpg })
  ∧ (∀ bbox m, find_window_bbox wins = .ok bbox →
       grab (apply_roi_to_bbox st c bbox) = .error m →
       grab_frame wins st c grab = (errorFrame m, some m)
       ∧ ∀ jpg, enc (errorFrame m) = .ok jpg →
           snapshot wins st c grab enc =
             .ok { status := 200, contentType := "image/jpeg", body := jpg }) := by
  constructor
  · intro e he
    have hg : grab_frame wins st c grab = (errorFrame (winErrMsg e), some (winErrMsg e)) := by
      simp only [grab_frame, he]
    refine ⟨hg, rfl, ?_⟩
    intro jpg hj
    simp only [snapshot, hg, hj]
  · intro bbox m hf hg2
    have hg : grab_frame wins st c grab = (errorFrame m, some m) := by
      simp only [grab_frame, hf, hg2]
    refine ⟨hg, ?_⟩
    intro jpg hj
    simp only [snapshot, hg, hj]

/-- Witness for C9: no window matches (empty enumeration), the encoder
succeeds, and the snapshot endpoint still answers HTTP 200. -/
theorem grab_frame_error_placeholder_witness :
    grab_frame [] initState 0 (fun _ => Except.error "grab failed") =
      (errorFrame "Window \x27DMV-Viewer\x27 not found",
       some "Window \x27DMV-Viewer\x27 not found")
    ∧ snapshot [] initState 0 (fun _ => Except.error "grab failed") (fun _ => Except.ok [7])
        = .ok { status := 200, contentType := "image/jpeg", body := [7] } :=
  ⟨((grab_frame_error_placeholder [] initState 0 (fun _ => Except.error "grab failed")
      (fun _ => Except.ok [7])).1 (.notFound "Window \x27DMV-Viewer\x27 not found") rfl).1,
   ((grab_frame_error_placeholder [] initState 0 (fun _ => Except.error "grab failed")
      (fun _ => Except.ok [7])).1 (.notFound "Window \x27DMV-Viewer\x27 not found") rfl).2.2
      [7] rfl⟩

/-- C6: from the initial state, any sequence of `/set_roi` requests leaves at
most one of the two runtime-override slots populated; a successful absolute
request sets the absolute slot (with the parsed values, defaults applied) and
clears the relative one, a successful relative request does the symmetric
thing, and afterwards `/health` reports that mode and exactly those override
values. -/
theorem set_roi_exclusive_health :
    (∀ reqs : List RoiRequest,
      ¬((runRequests reqs).roi_runtime_abs.isSome = true
        ∧ (runRequests reqs).roi_runtime_rel.isSome = true))
  ∧ (∀ (st : ServerState) (req : RoiRequest),
      (pyLower (req.mode.getD "") = "absolute" →
        (set_roi st req).1 = ⟨some "absolute",
            some (req.x.getD 0, req.y.getD 0, req.w.getD 1, req.h.getD 1), none⟩
        ∧ (set_roi st req).2 = ⟨true, 200⟩)
      ∧ (pyLower (req.mode.getD "") = "relative" →
        (set_roi st req).1 = ⟨some "relative", none,
            some (req.l.getD 0, req.t.getD 0, req.r.getD 1, req.b.getD 1)⟩
        ∧ (set_roi st req).2 = ⟨true, 200⟩))
  ∧ (∀ (st : ServerState) (req : RoiRequest) (c : ℤ) (wins : List PyWindow) (bbox : WindowBBox),
      find_window_bbox wins = .ok bbox →
      (pyLower (req.mode.getD "") = "absolute" →
        (health (set_roi st req).1 c wins).mode = some "absolute"
        ∧ (health (set_roi st req).1 c wins).runtime_abs
            = some (req.x.getD 0, req.y.getD 0, req.w.getD 1, req.h.getD 1)
        ∧ (health (set_roi st req).1 c wins).runtime_rel = none)
      ∧ (pyLower (req.mode.getD "") = "relative" →
        (health (set_roi st req).1 c wins).mode = some "relative"
        ∧ (health (set_roi st req).1 c wins).runtime_rel
            = some (req.l.getD 0, req.t.getD 0, req.r.getD 1, req.b.getD 1)
        ∧ (health (set_roi st req).1 c wins).runtime_abs = none)) := by
  have habs : ∀ (st : ServerState) (req : RoiRequest),
      pyLower (req.mode.getD "") = "absolute" →
      (set_roi st req).1 = (⟨some "absolute",
          some (req.x.getD 0, req.y.getD 0, req.w.getD 1, req.h.getD 1), none⟩ : ServerState)
      ∧ (set_roi st req).2 = ⟨true, 200⟩ := by
    intro st req h
    unfold set_roi
    rw [if_pos h]
    exact ⟨rfl, rfl⟩
  have hrel : ∀ (st : ServerState) (req : RoiRequest),
      pyLower (req.mode.getD "") = "relative" →
      (set_roi st req).1 = (⟨some "relative", none,
          some (req.l.getD 0, req.t.getD 0, req.r.getD 1, req.b.getD 1)⟩ : ServerState)
      ∧ (set_roi st req).2 = ⟨true, 200⟩ := by
    intro st req h
    unfold set_roi
    rw [if_neg (fun hc => by rw [h] at hc; exact absurd hc (by decide)), if_pos h]
    exact ⟨rfl, rfl⟩
  have hstep : ∀ (st : ServerState) (req : RoiRequest),
      ¬(st.roi_runtime_abs.isSome = true ∧ st.roi_runtime_rel.isSome = true) →
      ¬((set_roi st req).1.roi_runtime_abs.isSome = true
        ∧ (set_roi st req).1.roi_runtime_rel.isSome = true) := by
    intro st req h
    unfold set_roi
    split
    · simp
    · split
      · simp
      · exact h
  refine ⟨?_, fun st req => ⟨habs st req, hrel st req⟩, ?_⟩
  · have hfold : ∀ (reqs : List RoiRequest) (st : ServerState),
        ¬(st.roi_runtime_abs.isSome = true ∧ st.roi_runtime_rel.isSome = true) →
        ¬((reqs.foldl (fun s r => (set_roi s r).1) st).roi_runtime_abs.isSome = true
          ∧ (reqs.foldl (fun s r => (set_roi s r).1) st).roi_runtime_rel.isSome = true) := by
      intro reqs
      induction reqs with
      | nil => intro st h; exact h
      | cons r rs ih => intro st h; exact ih _ (hstep st r h)
    intro reqs
    exact hfold reqs initState (by simp [initState])
  · intro st req c wins bbox hfind
    have hh : ∀ st2 : ServerState, health st2 c wins =
        { ok := true, window := some bbox.title,
          roi_bbox := some (apply_roi_to_bbox st2 c bbox),
          mode := some (pyOrStr st2.roi_runtime_mode ROI_MODE),
          runtime_abs := st2.roi_runtime_abs,
          runtime_rel := st2.roi_runtime_rel,
          errorMsg := none, status := 200 } := by
      intro st2
      unfold health
      rw [hfind]
    constructor
    · intro h
      rw [(habs st req h).1, hh]
      exact ⟨by simp [pyOrStr], rfl, rfl⟩
    · intro h
      rw [(hrel st req h).1, hh]
      exact ⟨by simp [pyOrStr], rfl, rfl⟩

/-- Witness for C6: an absolute override request followed by a relative one
leaves only the relative slot populated, and health after an absolute request
reports mode `"absolute"`. -/
theorem set_roi_exclusive_health_witness :
    ¬(((runRequests [⟨some "absolute", some 3, some 4, some 5, some 6, none, none, none, none⟩,
          ⟨some "relative", none, none, none, none,
            some (1/4), some (1/4), some (3/4), some (3/4)⟩]).roi_runtime_abs.isSome = true)
      ∧ ((runRequests [⟨some "absolute", some 3, some 4, some 5, some 6, none, none, none, none⟩,
          ⟨some "relative", none, none, none, none,
            some (1/4), some (1/4), some (3/4), some (3/4)⟩]).roi_runtime_rel.isSome = true))
  ∧ (health (set_roi initState
        ⟨some "absolute", some 3, some 4, some 5, some 6, none, none, none, none⟩).1 0
      [⟨"DMV-Viewer", 1, 2, 30, 40, false⟩]).mode = some "absolute" :=
  ⟨set_roi_exclusive_health.1
      [⟨some "absolute", some 3, some 4, some 5, some 6, none, none, none, none⟩,
       ⟨some "relative", none, none, none, none,
         some (1/4), some (1/4), some (3/4), some (3/4)⟩],
   ((set_roi_exclusive_health.2.2 initState
      ⟨some "absolute", some 3, some 4, some 5, some 6, none, none, none, none⟩ 0
      [⟨"DMV-Viewer", 1, 2, 30, 40, false⟩] ⟨"DMV-Viewer", 1, 2, 29, 38⟩ rfl).1
      (by decide)).1⟩

/-- Witness for C8's amended theorem: a single non-minimized matching window
yields its bounding box. -/
theorem find_window_bbox_cases_witness :
    find_window_bbox [⟨"DMV-Viewer", 1, 2, 30, 40, false⟩] =
      .ok ⟨"DMV-Viewer", 1, 2, 29, 38⟩ :=
  ((find_window_bbox_cases [⟨"DMV-Viewer", 1, 2, 30, 40, false⟩]).2
    ⟨"DMV-Viewer", 1, 2, 30, 40, false⟩ [] (by decide)).2 rfl
